import Mathlib

set_option maxRecDepth 1000000
set_option maxHeartbeats 2000000

/-!
Verification development for the Natural-Language Query Resolution Engine of
`src/src/agents/mcp_agent.py` (class `NaturalLanguageSQLAgent`).

Strings are embedded as `List Char` (the Python code works on `str` values and
only ever uses lower-case/strip, substring tests and `re.search`).  Python
floats are embedded as `ℚ`; the confidence arithmetic of the source involves
only exactly-representable small operations, so the rational embedding tracks
the source formula.  The regular expressions of the pattern table use only
literal text, alternation `(a|b|…)`, single-character classes `[aã]` and the
greedy gap `.*`; the `Rx` type below covers exactly these constructs, and the
matcher `mFirst` implements leftmost backtracking search with Python's
priorities (alternatives tried left to right, `.*` greedy).  Newlines never
occur in the embedded vocabulary, so `.*` is modelled as "any characters".
-/

/-- Substring test: Python's `needle in hay` for strings. -/
def hasSub (hay needle : List Char) : Bool :=
  match hay with
  | [] => needle.isEmpty
  | _ :: rest => needle.isPrefixOf hay || hasSub rest needle

/-- `any(word in query for word in ws)` from the source. -/
def hasAny (q : List Char) (ws : List String) : Bool :=
  ws.any (fun w => hasSub q w.data)

/-- Python `str.lower` restricted to the Latin-1 range actually used by the
agent's vocabulary (ASCII letters and accented capitals À–Þ except ×). -/
def pyLowerChar (c : Char) : Char :=
  if 65 ≤ c.toNat ∧ c.toNat ≤ 90 then Char.ofNat (c.toNat + 32)
  else if 192 ≤ c.toNat ∧ c.toNat ≤ 222 ∧ c.toNat ≠ 215 then Char.ofNat (c.toNat + 32)
  else c

/-- The ASCII whitespace characters stripped by Python `str.strip()`. -/
def isWs (c : Char) : Bool :=
  c.toNat = 32 || c.toNat = 9 || c.toNat = 10 || c.toNat = 13 || c.toNat = 11 || c.toNat = 12

/-- Python `str.strip()` (ASCII whitespace). -/
def pyStrip (q : List Char) : List Char :=
  ((q.dropWhile isWs).reverse.dropWhile isWs).reverse

/-- `query.lower().strip()` — the normalization performed by
`process_natural_language_query`. -/
def normalizeQuery (q : List Char) : List Char :=
  pyStrip (q.map pyLowerChar)

/-- `query_type.replace('_', ' ')` used to build the explanation string. -/
def underscoresToSpaces (t : String) : String :=
  String.mk (t.data.map (fun c => if c = '_' then ' ' else c))

/-- Whether a SQL string mentions a word (substring test). -/
def sqlMentions (s : String) (w : String) : Bool :=
  hasSub s.data w.data

/-! ### The regular-expression fragment used by the pattern table -/

/-- Regexes of the agent's pattern table: literals, single-character classes,
the greedy `.*`, concatenation and alternation. -/
inductive Rx where
  | eps : Rx
  | lit : List Char → Rx
  | cls : List Char → Rx
  | dotStar : Rx
  | seq : Rx → Rx → Rx
  | alt : Rx → Rx → Rx
deriving DecidableEq, Repr

/-- Alternation of literal words, first alternative preferred (Python `(a|b|c)`). -/
def alts (xs : List String) : Rx :=
  match xs with
  | [] => .eps
  | [x] => .lit x.data
  | x :: rest => .alt (.lit x.data) (alts rest)

/-- General alternation, first alternative preferred. -/
def altsR (xs : List Rx) : Rx :=
  match xs with
  | [] => .eps
  | [x] => x
  | x :: rest => .alt x (altsR rest)

/-- Concatenation of a list of regexes. -/
def rcat (xs : List Rx) : Rx :=
  match xs with
  | [] => .eps
  | [x] => x
  | x :: rest => .seq x (rcat rest)

/-- The greedy gap `.*`. -/
def dstar : Rx := .dotStar

/-- A character class such as `[aã]`. -/
def oneOf (xs : List String) : Rx :=
  .cls (String.join xs).data

/-- Suffixes of `cs` in the order a greedy `.*` tries them: the suffix left
after consuming everything first, down to consuming nothing. -/
def gtails : List Char → List (List Char)
  | [] => [[]]
  | c :: rest => gtails rest ++ [c :: rest]

/-- First success of `k` over a list of candidate remainders, in order. -/
def firstSome (k : List Char → Option (List Char)) : List (List Char) → Option (List Char)
  | [] => none
  | x :: xs =>
    match k x with
    | some r => some r
    | none => firstSome k xs

/-- Backtracking matcher in continuation style.  `mFirst r cs k` tries the ways
`r` can consume a prefix of `cs` in Python's priority order (alternatives left
to right, `.*` longest first) and returns the first remainder accepted by `k`. -/
def mFirst : Rx → List Char → (List Char → Option (List Char)) → Option (List Char)
  | .eps, cs, k => k cs
  | .lit s, cs, k => if s.isPrefixOf cs then k (cs.drop s.length) else none
  | .cls a, cs, k =>
    match cs with
    | [] => none
    | c :: rest => if a.contains c then k rest else none
  | .dotStar, cs, k => firstSome k (gtails cs)
  | .seq a b, cs, k => mFirst a cs (fun rem => mFirst b rem k)
  | .alt a b, cs, k =>
    match mFirst a cs k with
    | some r => some r
    | none => mFirst b cs k

/-- `re.search` scanning: try the match at offset `i`, `i+1`, … and return the
first offset where the regex matches, together with the length of the first
(priority-order) match there. -/
def reSearchAux (r : Rx) : List Char → ℕ → Option (ℕ × ℕ)
  | [], i =>
    match mFirst r [] some with
    | some rem => some (i, List.length ([] : List Char) - rem.length)
    | none => none
  | c :: rest, i =>
    match mFirst r (c :: rest) some with
    | some rem => some (i, (c :: rest).length - rem.length)
    | none => reSearchAux r rest (i + 1)

/-- `re.search(pattern, query)`: `some (start, length)` of the match, if any. -/
def searchMatch (r : Rx) (q : List Char) : Option (ℕ × ℕ) :=
  reSearchAux r q 0

/-! ### Confidence scoring (`_find_matching_query_improved`, lines 434-438) -/

/-- `position_score = 1.0 - (match.start() / max(query_length, 1))`. -/
def positionScore (L s : ℕ) : ℚ :=
  1 - (s : ℚ) / ((Nat.max L 1 : ℕ) : ℚ)

/-- `length_score = match_length / max(query_length, 1)`. -/
def lengthScore (L l : ℕ) : ℚ :=
  (l : ℚ) / ((Nat.max L 1 : ℕ) : ℚ)

/-- `confidence = (position_score + length_score) / 2`. -/
def confidenceScore (L s l : ℕ) : ℚ :=
  (positionScore L s + lengthScore L l) / 2

/-! ### The pattern library (`self.query_patterns`, lines 31-286) -/

/-- `regi[aã]o`. -/
def rxRegiao : Rx := rcat [alts ["regi"], oneOf ["aã"], alts ["o"]]

/-- `regi[oõ]es`. -/
def rxRegioes : Rx := rcat [alts ["regi"], oneOf ["oõ"], alts ["es"]]

/-- `an[aá]lise`. -/
def rxAnalise : Rx := rcat [alts ["an"], oneOf ["aá"], alts ["lise"]]

/-- The ordered pattern table of the agent, category by category, pattern by
pattern, in source order. -/
def queryPatterns : List (String × List Rx) := [
  ("dashboard", [
    alts ["dashboard", "resumo", "overview", "visão geral", "painel", "painel executivo"],
    rcat [alts ["mostre", "exiba", "apresente"], dstar, alts ["dashboard", "resumo", "overview"]],
    rcat [alts ["kpis", "indicadores", "métricas"], dstar, alts ["principais", "gerais"]]]),
  ("top_regions", [
    rcat [alts ["top", "melhores", "principais"], dstar, alts ["regiões", "região", "regions"]],
    rcat [alts ["quais", "mostre", "exiba"], dstar, alts ["top", "melhores"], dstar,
      alts ["regiões", "região"]],
    rcat [alts ["regiões", "região"], dstar, alts ["com mais", "com maior"], dstar,
      alts ["vendas", "performance"]],
    rcat [alts ["ranking", "classificação"], dstar, alts ["regiões", "região"]],
    rcat [alts ["top 5", "top5", "cinco melhores"], dstar, alts ["regiões", "região"]],
    rcat [alts ["quais"], dstar, alts ["são", "sao"], dstar, alts ["as"], dstar, alts ["top"],
      dstar, alts ["5"], dstar, alts ["regiões", "região"]],
    rcat [alts ["quais"], dstar, alts ["são", "sao"], dstar, alts ["as"], dstar, alts ["top 5"],
      dstar, alts ["regiões", "região"]],
    rcat [alts ["quais"], dstar, alts ["são", "sao"], dstar, alts ["top 5"], dstar,
      alts ["regiões", "região"]]]),
  ("regional_performance", [
    rcat [alts ["performance", "desempenho"], dstar, alts ["por", "da", "das"], dstar,
      altsR [rxRegiao, rxRegioes]],
    rcat [alts ["vendas", "resultados"], dstar, alts ["por", "da", "das"], dstar,
      altsR [rxRegiao, rxRegioes]],
    rcat [altsR [rxAnalise, alts ["comparativo"]], dstar, altsR [rxRegioes, rxRegiao]],
    rcat [altsR [rxRegiao, rxRegioes], dstar, alts ["performance", "desempenho", "vendas"]],
    rcat [alts ["qual", "quais"], dstar, alts ["performance", "desempenho"], dstar,
      alts ["por", "da", "das"], dstar, altsR [rxRegiao, rxRegioes]],
    rcat [alts ["mostre", "exiba"], dstar, alts ["performance", "desempenho"], dstar,
      alts ["por", "da", "das"], dstar, altsR [rxRegiao, rxRegioes]]]),
  ("top_models", [
    rcat [alts ["top", "melhores", "principais"], dstar, alts ["modelos", "modelo", "models"]],
    rcat [alts ["quais", "mostre", "exiba"], dstar, alts ["top", "melhores"], dstar,
      alts ["modelos", "modelo"]],
    rcat [alts ["modelos", "modelo"], dstar, alts ["com mais", "com maior"], dstar,
      alts ["vendas", "performance"]],
    rcat [alts ["ranking", "classificação"], dstar, alts ["modelos", "modelo"]],
    rcat [alts ["top 10", "top10", "dez melhores"], dstar, alts ["modelos", "modelo"]],
    rcat [alts ["quais"], dstar, alts ["são", "sao"], dstar, alts ["os"], dstar,
      alts ["top", "melhores"], dstar, alts ["modelos", "modelo"]]]),
  ("model_performance", [
    rcat [alts ["performance", "desempenho"], dstar, alts ["por", "do", "dos"], dstar,
      alts ["modelo", "modelos"]],
    rcat [alts ["vendas", "resultados"], dstar, alts ["por", "do", "dos"], dstar,
      alts ["modelo", "modelos"]],
    rcat [alts ["análise", "comparativo"], dstar, alts ["modelos", "modelo"]],
    rcat [alts ["modelo", "modelos"], dstar, alts ["performance", "desempenho", "vendas"]],
    rcat [alts ["total", "soma"], dstar, alts ["vendas", "receita"], dstar,
      alts ["por", "do", "dos"], dstar, alts ["modelo", "modelos"]],
    rcat [alts ["modelo", "modelos"], dstar, alts ["total", "soma"], dstar,
      alts ["vendas", "receita"]],
    rcat [alts ["mostre", "exiba"], dstar, alts ["total", "soma"], dstar,
      alts ["vendas", "receita"], dstar, alts ["por", "do", "dos"], dstar,
      alts ["modelo", "modelos"]],
    rcat [alts ["receita", "faturamento"], dstar, alts ["por", "do", "dos"], dstar,
      alts ["modelo", "modelos"]]]),
  ("annual_sales", [
    rcat [alts ["vendas", "sales"], dstar, alts ["anuais", "anual", "por ano", "by year"]],
    rcat [alts ["mostre", "exiba", "apresente"], dstar, alts ["vendas", "sales"], dstar,
      alts ["anuais", "anual"]],
    rcat [alts ["resumo", "agregado"], dstar, alts ["anual", "por ano"]],
    rcat [alts ["evolução", "histórico"], dstar, alts ["anual", "por ano"]]]),
  ("annual_growth", [
    rcat [alts ["crescimento", "growth", "evolução"], dstar, alts ["anual", "por ano"]],
    rcat [alts ["mostre", "exiba"], dstar, alts ["crescimento", "growth"], dstar,
      alts ["anual", "por ano"]],
    rcat [alts ["taxa", "percentual"], dstar, alts ["crescimento", "growth"]],
    rcat [alts ["aumento", "redução"], dstar, alts ["anual", "por ano"]]]),
  ("price_analysis", [
    rcat [alts ["análise", "analise"], dstar, alts ["preços", "precos", "preço", "preco"]],
    rcat [alts ["segmentação", "segmentacao"], dstar, alts ["preços", "precos", "preço", "preco"]],
    rcat [alts ["distribuição", "distribuicao"], dstar,
      alts ["preços", "precos", "preço", "preco"]],
    rcat [alts ["faixas", "ranges"], dstar, alts ["preços", "precos", "preço", "preco"]],
    rcat [alts ["preços", "precos", "preço", "preco"], dstar, alts ["por", "por"], dstar,
      alts ["modelo", "região", "regiao"]],
    rcat [alts ["entry level", "mid range", "premium", "luxury"], dstar,
      alts ["modelos", "modelo"]]]),
  ("color_performance", [
    rcat [alts ["cores", "cor"], dstar, alts ["mais", "top", "melhores"], dstar,
      alts ["vendidas", "populares"]],
    rcat [alts ["performance", "desempenho"], dstar, alts ["por", "da", "das"], dstar,
      alts ["cores", "cor"]],
    rcat [alts ["análise", "analise"], dstar, alts ["cores", "cor"]],
    rcat [alts ["cores", "cor"], dstar, alts ["preferidas", "favoritas", "populares"]],
    rcat [alts ["qual", "quais"], dstar, alts ["cores", "cor"], dstar, alts ["são", "sao"],
      dstar, alts ["mais"], dstar, alts ["vendidas", "populares"]]]),
  ("model_efficiency", [
    rcat [alts ["eficiência", "eficiencia"], dstar, alts ["modelos", "modelo"]],
    rcat [alts ["relação", "relacao"], dstar, alts ["preço", "preco"], dstar,
      alts ["eficiência", "eficiencia"]],
    rcat [alts ["modelos", "modelo"], dstar, alts ["mais", "melhor"], dstar,
      alts ["eficientes", "eficiente"]],
    alts ["revenue per unit", "receita por unidade"],
    alts ["price per liter", "preço por litro"],
    rcat [alts ["análise", "analise"], dstar, alts ["eficiência", "eficiencia"]]]),
  ("seasonal_analysis", [
    rcat [alts ["sazonalidade", "sazonal"], dstar, alts ["por", "da", "das"], dstar,
      alts ["região", "regiao"]],
    rcat [alts ["tendências", "trends"], dstar, alts ["sazonais", "sazonal"]],
    rcat [alts ["crescimento", "growth"], dstar, alts ["por", "da", "das"], dstar,
      alts ["região", "regiao"]],
    rcat [alts ["análise", "analise"], dstar, alts ["sazonal", "sazonalidade"]],
    rcat [alts ["performance", "desempenho"], dstar, alts ["sazonal", "sazonalidade"]]]),
  ("top_performers", [
    alts ["top performers", "melhores performers"],
    rcat [alts ["modelos", "modelo"], dstar, alts ["completos", "completo"]],
    rcat [alts ["ranking", "classificação", "classificacao"], dstar,
      alts ["composto", "completo"]],
    rcat [alts ["múltiplas", "multiplas"], dstar, alts ["métricas", "metricas"]],
    rcat [alts ["score", "pontuação", "pontuacao"], dstar, alts ["composto", "completo"]]]),
  ("price_volume_correlation", [
    rcat [alts ["correlação", "correlacao"], dstar, alts ["preço", "preco"], dstar,
      alts ["volume"]],
    rcat [alts ["relação", "relacao"], dstar, alts ["preço", "preco"], dstar,
      alts ["vendas", "volume"]],
    rcat [alts ["análise", "analise"], dstar, alts ["correlação", "correlacao"]],
    rcat [alts ["preço", "preco"], dstar, alts ["vs", "versus"], dstar,
      alts ["volume", "vendas"]],
    alts ["high price high volume", "low price high volume"]]),
  ("market_penetration", [
    rcat [alts ["penetração", "penetracao"], dstar, alts ["mercado", "market"]],
    rcat [alts ["cobertura", "coverage"], dstar, alts ["mercado", "market"]],
    rcat [alts ["diversidade", "diversidade"], dstar, alts ["produtos", "produto"]],
    rcat [alts ["modelos", "modelo"], dstar, alts ["disponíveis", "disponiveis"], dstar,
      alts ["por", "da", "das"], dstar, alts ["região", "regiao"]],
    rcat [alts ["market share", "participação", "participacao"], dstar,
      alts ["mercado", "market"]]]),
  ("temporal_trends", [
    rcat [alts ["tendências", "trends"], dstar, alts ["temporais", "temporal"]],
    rcat [alts ["evolução", "evolucao"], dstar, alts ["temporal", "tempo"]],
    rcat [alts ["histórico", "historico"], dstar, alts ["completo", "completo"]],
    rcat [alts ["análise", "analise"], dstar, alts ["temporal", "tempo"]],
    rcat [alts ["crescimento", "growth"], dstar, alts ["temporal", "tempo"]]]),
  ("year_analysis", [
    rcat [alts ["qual", "quais"], dstar, alts ["ano", "anos"], dstar,
      alts ["tem", "tem mais", "tem maior", "tem melhor"]],
    rcat [alts ["ano", "anos"], dstar, alts ["com mais", "com maior", "com melhor", "melhor"]],
    rcat [alts ["melhor", "maior", "mais"], dstar, alts ["ano", "anos"]],
    rcat [alts ["vendas", "modelos", "performance"], dstar, alts ["por", "do", "da"], dstar,
      alts ["ano", "anos"]],
    rcat [alts ["ano", "anos"], dstar, alts ["vendas", "modelos", "performance"]],
    rcat [alts ["qual", "quais"], dstar, alts ["ano", "anos"], dstar, alts ["vendas", "modelos"]],
    rcat [alts ["ano", "anos"], dstar, alts ["mais", "maior", "melhor"], dstar,
      alts ["vendas", "modelos"]]]),
  ("fuel_performance", [
    rcat [alts ["tipo", "tipos"], dstar, alts ["combustível", "combustivel", "fuel"]],
    rcat [alts ["performance", "desempenho"], dstar,
      alts ["combustível", "combustivel", "fuel"]],
    rcat [alts ["vendas", "sales"], dstar, alts ["por", "do"], dstar,
      alts ["combustível", "combustivel", "fuel"]],
    rcat [alts ["análise", "comparativo"], dstar, alts ["combustível", "combustivel", "fuel"]]]),
  ("transmission_performance", [
    alts ["transmissão", "transmissao", "transmission", "câmbio", "cambio"],
    rcat [alts ["performance", "desempenho"], dstar,
      alts ["transmissão", "transmissao", "transmission"]],
    rcat [alts ["vendas", "sales"], dstar, alts ["por", "do"], dstar,
      alts ["transmissão", "transmissao", "transmission"]],
    rcat [alts ["análise", "comparativo"], dstar,
      alts ["transmissão", "transmissao", "transmission"]]]),
  ("market_share", [
    rcat [alts ["market share", "participação", "participacao"], dstar,
      alts ["mercado", "market"]],
    rcat [alts ["quota", "share"], dstar, alts ["mercado", "market"]],
    rcat [alts ["percentual", "porcentagem"], dstar, alts ["mercado", "market"]]]),
  ("count_total", [
    rcat [alts ["conte", "count", "total", "quantos", "quantas"], dstar,
      alts ["registros", "records"]],
    rcat [alts ["quantos", "quantas"], dstar, alts ["registros", "records", "linhas"]],
    rcat [alts ["total", "soma"], dstar, alts ["registros", "records"]],
    rcat [alts ["número", "numero", "n"], dstar, alts ["registros", "records"]]]),
  ("count_regions", [
    rcat [alts ["conte", "count", "quantos", "quantas"], dstar,
      alts ["regiões", "região", "regions"]],
    rcat [alts ["quantos", "quantas"], dstar, alts ["regiões", "região", "regions"]],
    rcat [alts ["total", "soma"], dstar, alts ["regiões", "região", "regions"]]]),
  ("count_models", [
    rcat [alts ["conte", "count", "quantos", "quantas"], dstar,
      alts ["modelos", "modelo", "models"]],
    rcat [alts ["quantos", "quantas"], dstar, alts ["modelos", "modelo", "models"]],
    rcat [alts ["total", "soma"], dstar, alts ["modelos", "modelo", "models"]]]),
  ("average_price", [
    rcat [alts ["média", "media", "average", "avg"], dstar, alts ["preço", "preco", "price"]],
    rcat [alts ["preço", "preco", "price"], dstar, alts ["médio", "medio", "average"]],
    rcat [alts ["valor", "value"], dstar, alts ["médio", "medio", "average"]],
    rcat [alts ["custo", "cost"], dstar, alts ["médio", "medio", "average"]],
    rcat [alts ["média", "media", "average", "avg"], dstar, alts ["preço", "preco", "price"],
      dstar, alts ["por", "do", "da", "dos"], dstar, alts ["ano", "anos"]],
    rcat [alts ["preço", "preco", "price"], dstar, alts ["médio", "medio", "average"], dstar,
      alts ["por", "do", "da", "dos"], dstar, alts ["ano", "anos"]],
    rcat [alts ["qual", "quais"], dstar, alts ["média", "media", "average", "avg"], dstar,
      alts ["preço", "preco", "price"], dstar, alts ["por", "do", "da", "dos"], dstar,
      alts ["ano", "anos"]]]),
  ("average_sales", [
    rcat [alts ["média", "media", "average", "avg"], dstar, alts ["vendas", "sales", "unidades"]],
    rcat [alts ["vendas", "sales", "unidades"], dstar, alts ["média", "media", "average"]],
    rcat [alts ["quantidade", "quantity"], dstar, alts ["média", "media", "average"]]]),
  ("sum_sales", [
    rcat [alts ["soma", "sum", "total"], dstar, alts ["vendas", "sales", "unidades"]],
    rcat [alts ["total", "soma", "sum"], dstar, alts ["unidades", "units"]],
    rcat [alts ["quantidade", "quantity"], dstar, alts ["total", "soma", "sum"]]]),
  ("sum_revenue", [
    rcat [alts ["soma", "sum", "total"], dstar, alts ["receita", "revenue", "faturamento"]],
    rcat [alts ["total", "soma", "sum"], dstar, alts ["receita", "revenue"]],
    rcat [alts ["faturamento", "billing"], dstar, alts ["total", "soma", "sum"]]]),
  ("asia_sales", [
    rcat [alts ["vendas", "sales"], dstar, alts ["ásia", "asia", "asiático", "asiatico"]],
    rcat [alts ["ásia", "asia", "asiático", "asiatico"], dstar, alts ["vendas", "sales"]],
    rcat [alts ["mercado", "market"], dstar, alts ["asiático", "asiatico", "ásia", "asia"]]]),
  ("europe_sales", [
    rcat [alts ["vendas", "sales"], dstar, alts ["europa", "europeu", "europe"]],
    rcat [alts ["europa", "europeu", "europe"], dstar, alts ["vendas", "sales"]],
    rcat [alts ["mercado", "market"], dstar, alts ["europeu", "europe", "europa"]]]),
  ("america_sales", [
    rcat [alts ["vendas", "sales"], dstar, alts ["américa", "america", "americano", "america"]],
    rcat [alts ["américa", "america", "americano", "america"], dstar, alts ["vendas", "sales"]],
    rcat [alts ["mercado", "market"], dstar, alts ["americano", "america", "américa"]]]),
  ("series_7", [
    rcat [alts ["série", "serie", "series"], dstar, alts ["7"]],
    rcat [alts ["7"], dstar, alts ["série", "serie", "series"]],
    rcat [alts ["modelo", "model"], dstar, alts ["7"]],
    rcat [alts ["7"], dstar, alts ["modelo", "model"]]]),
  ("series_3", [
    rcat [alts ["série", "serie", "series"], dstar, alts ["3"]],
    rcat [alts ["3"], dstar, alts ["série", "serie", "series"]],
    rcat [alts ["modelo", "model"], dstar, alts ["3"]],
    rcat [alts ["3"], dstar, alts ["modelo", "model"]]]),
  ("i8_sales", [
    alts ["i8", "i-8"],
    rcat [alts ["modelo", "model"], dstar, alts ["i8", "i-8"]],
    rcat [alts ["vendas", "sales"], dstar, alts ["i8", "i-8"]]])]

/-! ### The template store (`self.predefined_queries`, lines 289-342) -/

/-- The fixed SQL templates, keyed by category id, in source order. -/
def predefinedQueries : List (String × String) := [
  ("dashboard", "SELECT * FROM analytics.kpi_executive_dashboard"),
  ("top_regions", "SELECT * FROM analytics.kpi_top_5_regions"),
  ("top_models", "SELECT * FROM analytics.kpi_top_10_models LIMIT 10"),
  ("annual_sales", "SELECT * FROM analytics.kpi_annual_sales"),
  ("regional_performance", "SELECT * FROM analytics.kpi_regional_performance"),
  ("model_performance", "SELECT model, TO_CHAR(SUM(price_usd * sales_volume), 'FM999,999,999,999,999') as total_revenue, SUM(sales_volume) as total_units_sold FROM bmw_sales GROUP BY model ORDER BY SUM(price_usd * sales_volume) DESC"),
  ("fuel_performance", "SELECT * FROM analytics.kpi_fuel_type_performance"),
  ("transmission_performance", "SELECT * FROM analytics.kpi_transmission_performance"),
  ("annual_growth", "SELECT * FROM analytics.kpi_annual_growth"),
  ("year_analysis", "SELECT year, COUNT(DISTINCT model) as total_models, SUM(sales_volume) as total_sales FROM bmw_sales GROUP BY year ORDER BY total_sales DESC"),
  ("price_analysis", "SELECT * FROM analytics.kpi_price_analysis"),
  ("color_performance", "SELECT * FROM analytics.kpi_color_performance"),
  ("model_efficiency", "SELECT * FROM analytics.kpi_model_efficiency"),
  ("seasonal_analysis", "SELECT * FROM analytics.kpi_seasonal_analysis"),
  ("top_performers", "SELECT * FROM analytics.kpi_top_performers"),
  ("price_volume_correlation", "SELECT * FROM analytics.kpi_price_volume_correlation"),
  ("market_penetration", "SELECT * FROM analytics.kpi_market_penetration"),
  ("temporal_trends", "SELECT * FROM analytics.kpi_temporal_trends"),
  ("count_total", "SELECT COUNT(*) as total_records FROM bmw_sales"),
  ("count_regions", "SELECT COUNT(DISTINCT region) as total_regions FROM bmw_sales"),
  ("count_models", "SELECT COUNT(DISTINCT model) as total_models FROM bmw_sales"),
  ("count_countries", "SELECT COUNT(DISTINCT country) as total_countries FROM bmw_sales"),
  ("average_price", "SELECT year, AVG(price_usd) as average_price FROM bmw_sales GROUP BY year ORDER BY year"),
  ("average_sales", "SELECT AVG(sales_volume) as average_sales FROM bmw_sales"),
  ("average_revenue", "SELECT AVG(price_usd * sales_volume) as average_revenue FROM bmw_sales"),
  ("average_mileage", "SELECT AVG(mileage_km) as average_mileage FROM bmw_sales"),
  ("sum_sales", "SELECT SUM(sales_volume) as total_sales FROM bmw_sales"),
  ("sum_revenue", "SELECT TO_CHAR(SUM(price_usd * sales_volume), 'FM999,999,999,999,999') as total_revenue FROM bmw_sales"),
  ("sum_sales_value", "SELECT TO_CHAR(SUM(price_usd * sales_volume), 'FM999,999,999,999,999') as total_sales_value FROM bmw_sales"),
  ("min_price", "SELECT MIN(price_usd) as min_price FROM bmw_sales"),
  ("max_price", "SELECT MAX(price_usd) as max_price FROM bmw_sales"),
  ("min_sales", "SELECT MIN(sales_volume) as min_sales FROM bmw_sales"),
  ("max_sales", "SELECT MAX(sales_volume) as max_sales FROM bmw_sales"),
  ("top_region_revenue", "SELECT region, TO_CHAR(SUM(price_usd * sales_volume), 'FM999,999,999,999,999') as total_revenue FROM bmw_sales GROUP BY region ORDER BY SUM(price_usd * sales_volume) DESC LIMIT 1"),
  ("top_model_revenue", "SELECT model, TO_CHAR(SUM(price_usd * sales_volume), 'FM999,999,999,999,999') as total_revenue FROM bmw_sales GROUP BY model ORDER BY SUM(price_usd * sales_volume) DESC LIMIT 1"),
  ("series_7", "SELECT * FROM bmw_sales WHERE model = '7 Series' ORDER BY sales_volume DESC LIMIT 10"),
  ("series_3", "SELECT * FROM bmw_sales WHERE model = '3 Series' ORDER BY sales_volume DESC LIMIT 10"),
  ("i8_sales", "SELECT * FROM bmw_sales WHERE model = 'i8' ORDER BY sales_volume DESC LIMIT 10")]

/-- `self.predefined_queries.get(query_type)`: `none` when the key is absent. -/
def lookupTemplate (t : String) : Option String :=
  List.lookup t predefinedQueries

/-- `_get_suggestions_improved` (lines 696-732). -/
def getSuggestionsImproved : List String := [
  "Mostre o dashboard executivo",
  "Quais são as top 5 regiões?",
  "Quais são os top 10 modelos?",
  "Mostre as vendas anuais",
  "Qual a performance por região?",
  "Qual o crescimento anual?",
  "Conte o total de registros",
  "Qual a média de preços?",
  "Soma total de vendas",
  "Qual a região com maior faturamento?",
  "Total de vendas por modelo",
  "Mostre a performance por combustível",
  "Qual o modelo mais vendido?",
  "Conte quantas regiões temos",
  "Qual o preço máximo?",
  "Qual ano tem mais modelos vendidos?",
  "Quais são os anos com mais vendas?",
  "Mostre vendas por ano",
  "Qual o melhor ano em vendas?",
  "Análise de preços por segmento",
  "Quais cores são mais vendidas?",
  "Modelos mais eficientes",
  "Análise sazonal por região",
  "Top performers por múltiplas métricas",
  "Correlação preço-volume",
  "Penetração de mercado por região",
  "Tendências temporais completas",
  "Performance por cor",
  "Eficiência dos modelos",
  "Crescimento por região",
  "Diversidade de produtos por região"]

/-! ### The matcher (`_find_matching_query_improved`, lines 424-451) -/

/-- The `best_match` dictionary built on a pattern hit (lines 442-449), plus the
match offset and length the scores were computed from. -/
structure Hit where
  type : String
  sql : Option String
  explanation : String
  confidence : ℚ
  pattern : Rx
  matched : List Char
  start : ℕ
  len : ℕ
deriving DecidableEq, Repr

/-- Build the hit record for category `t`, pattern `p`, matching `q` at offset
`s` with length `l`. -/
def mkHit (t : String) (p : Rx) (q : List Char) (s l : ℕ) : Hit :=
  ⟨t, lookupTemplate t, "Consulta de " ++ underscoresToSpaces t,
    confidenceScore q.length s l, p, (q.drop s).take l, s, l⟩

/-- The hit a single pattern produces on `q`, if `re.search` succeeds. -/
def patternHit (q : List Char) (t : String) (p : Rx) : Option Hit :=
  (searchMatch p q).map (fun sl => mkHit t p q sl.1 sl.2)

/-- One comparison step of the sweep: keep the new hit only when its confidence
is strictly greater than the best score so far (line 440). -/
def bestStep (acc : Option Hit × ℚ) (h : Hit) : Option Hit × ℚ :=
  if acc.2 < h.confidence then (some h, h.confidence) else acc

/-- The body of the inner pattern loop. -/
def patternStep (q : List Char) (t : String) (acc : Option Hit × ℚ) (p : Rx) :
    Option Hit × ℚ :=
  match patternHit q t p with
  | some h => bestStep acc h
  | none => acc

/-- The full sweep over every pattern of every category, carrying
`(best_match, best_score)` initialised to `(None, 0)`. -/
def sweepResult (q : List Char) : Option Hit × ℚ :=
  queryPatterns.foldl (fun acc e => e.2.foldl (patternStep q e.1) acc) (none, (0 : ℚ))

/-- `_find_matching_query_improved`: the best hit if its score exceeds the 0.3
minimum confidence threshold, otherwise `None` (line 451). -/
def findMatchingQueryImproved (q : List Char) : Option Hit :=
  if (3 / 10 : ℚ) < (sweepResult q).2 then (sweepResult q).1 else none

/-- All hits of the sweep, in sweep order (categories in table order, patterns
in category order, non-matching patterns skipped). -/
def allHits (q : List Char) : List Hit :=
  (queryPatterns.map (fun e => e.2.filterMap (patternHit q e.1))).flatten

/-! ### The custom query synthesizer (`_generate_custom_query_improved`,
lines 453-675).  An `elif` whose body reaches no `return` falls through to the
final `return None`, skipping all later `elif`s; that is rendered here by an
inner `else none`. -/

/-- `_generate_custom_query_improved`. -/
def generateCustomQueryImproved (q : List Char) : Option String :=
  if hasAny q ["conte", "count", "quantos", "quantas"] && !hasAny q ["soma", "sum", "total"] then
    if hasAny q ["regiões", "região", "regions"] then
      some "SELECT COUNT(DISTINCT region) as total_regions FROM bmw_sales"
    else if hasAny q ["modelos", "modelo", "models"] then
      some "SELECT COUNT(DISTINCT model) as total_models FROM bmw_sales"
    else if hasAny q ["países", "país", "countries"] then
      some "SELECT COUNT(DISTINCT country) as total_countries FROM bmw_sales"
    else if hasAny q ["registros", "records", "linhas"] then
      some "SELECT COUNT(*) as total_records FROM bmw_sales"
    else
      some "SELECT COUNT(*) as total_records FROM bmw_sales"
  else if hasAny q ["média", "media", "average", "avg"] then
    if hasAny q ["preço", "preco", "price"] then
      if hasAny q ["por", "por cada", "por modelo", "por modelos", "por região", "por regiões",
          "por ano", "por anos"] then
        if hasAny q ["modelo", "modelos"] then
          some "SELECT model, AVG(price_usd) as average_price FROM bmw_sales GROUP BY model ORDER BY average_price DESC"
        else if hasAny q ["região", "regiões"] then
          some "SELECT region, AVG(price_usd) as average_price FROM bmw_sales GROUP BY region ORDER BY average_price DESC"
        else if hasAny q ["ano", "anos"] then
          some "SELECT year, AVG(price_usd) as average_price FROM bmw_sales GROUP BY year ORDER BY year"
        else
          some "SELECT AVG(price_usd) as average_price FROM bmw_sales"
      else
        some "SELECT AVG(price_usd) as average_price FROM bmw_sales"
    else if hasAny q ["vendas", "sales", "unidades"] then
      if hasAny q ["por", "por cada", "por modelo", "por modelos", "por região", "por regiões",
          "por ano", "por anos"] then
        if hasAny q ["modelo", "modelos"] then
          some "SELECT model, AVG(sales_volume) as average_sales FROM bmw_sales GROUP BY model ORDER BY average_sales DESC"
        else if hasAny q ["região", "regiões"] then
          some "SELECT region, AVG(sales_volume) as average_sales FROM bmw_sales GROUP BY region ORDER BY average_sales DESC"
        else if hasAny q ["ano", "anos"] then
          some "SELECT year, AVG(sales_volume) as average_sales FROM bmw_sales GROUP BY year ORDER BY year"
        else
          some "SELECT AVG(sales_volume) as average_sales FROM bmw_sales"
      else
        some "SELECT AVG(sales_volume) as average_sales FROM bmw_sales"
    else if hasAny q ["receita", "revenue"] then
      if hasAny q ["por", "por cada", "por modelo", "por modelos", "por região", "por regiões",
          "por ano", "por anos"] then
        if hasAny q ["modelo", "modelos"] then
          some "SELECT model, AVG(price_usd * sales_volume) as average_revenue FROM bmw_sales GROUP BY model ORDER BY average_revenue DESC"
        else if hasAny q ["região", "regiões"] then
          some "SELECT region, AVG(price_usd * sales_volume) as average_revenue FROM bmw_sales GROUP BY region ORDER BY average_revenue DESC"
        else if hasAny q ["ano", "anos"] then
          some "SELECT year, AVG(price_usd * sales_volume) as average_revenue FROM bmw_sales GROUP BY year ORDER BY year"
        else
          some "SELECT AVG(price_usd * sales_volume) as average_revenue FROM bmw_sales"
      else
        some "SELECT AVG(price_usd * sales_volume) as average_revenue FROM bmw_sales"
    else if hasAny q ["quilometragem", "mileage"] then
      if hasAny q ["por", "por cada", "por modelo", "por modelos", "por região", "por regiões",
          "por ano", "por anos"] then
        if hasAny q ["modelo", "modelos"] then
          some "SELECT model, AVG(mileage_km) as average_mileage FROM bmw_sales GROUP BY model ORDER BY average_mileage DESC"
        else if hasAny q ["região", "regiões"] then
          some "SELECT region, AVG(mileage_km) as average_mileage FROM bmw_sales GROUP BY region ORDER BY average_mileage DESC"
        else if hasAny q ["ano", "anos"] then
          some "SELECT year, AVG(mileage_km) as average_mileage FROM bmw_sales GROUP BY year ORDER BY year"
        else
          some "SELECT AVG(mileage_km) as average_mileage FROM bmw_sales"
      else
        some "SELECT AVG(mileage_km) as average_mileage FROM bmw_sales"
    else
      none
  else if hasAny q ["soma", "sum"] ||
      (hasAny q ["total"] && hasAny q ["vendas", "sales", "unidades", "receita", "revenue"]) then
    if hasAny q ["vendas", "sales", "unidades"] then
      if hasAny q ["por", "por cada", "por modelo", "por modelos", "por região", "por regiões",
          "por ano", "por anos"] then
        if hasAny q ["modelo", "modelos"] then
          some "SELECT model, SUM(sales_volume) as total_sales FROM bmw_sales GROUP BY model ORDER BY total_sales DESC"
        else if hasAny q ["região", "regiões"] then
          some "SELECT region, SUM(sales_volume) as total_sales FROM bmw_sales GROUP BY region ORDER BY total_sales DESC"
        else if hasAny q ["ano", "anos"] then
          some "SELECT year, SUM(sales_volume) as total_sales FROM bmw_sales GROUP BY year ORDER BY year"
        else
          some "SELECT SUM(sales_volume) as total_sales FROM bmw_sales"
      else
        some "SELECT SUM(sales_volume) as total_sales FROM bmw_sales"
    else if hasAny q ["receita", "revenue", "faturamento"] then
      if hasAny q ["por", "por cada", "por modelo", "por modelos", "por região", "por regiões",
          "por ano", "por anos"] then
        if hasAny q ["modelo", "modelos"] then
          some "SELECT model, TO_CHAR(SUM(price_usd * sales_volume), 'FM999,999,999,999,999') as total_revenue FROM bmw_sales GROUP BY model ORDER BY SUM(price_usd * sales_volume) DESC"
        else if hasAny q ["região", "regiões"] then
          some "SELECT region, TO_CHAR(SUM(price_usd * sales_volume), 'FM999,999,999,999,999') as total_revenue FROM bmw_sales GROUP BY region ORDER BY SUM(price_usd * sales_volume) DESC"
        else if hasAny q ["ano", "anos"] then
          some "SELECT year, TO_CHAR(SUM(price_usd * sales_volume), 'FM999,999,999,999,999') as total_revenue FROM bmw_sales GROUP BY year ORDER BY year"
        else
          some "SELECT TO_CHAR(SUM(price_usd * sales_volume), 'FM999,999,999,999,999') as total_revenue FROM bmw_sales"
      else
        some "SELECT TO_CHAR(SUM(price_usd * sales_volume), 'FM999,999,999,999,999') as total_revenue FROM bmw_sales"
    else if hasAny q ["valor", "value", "total_sales"] then
      if hasAny q ["por", "por cada", "por modelo", "por modelos", "por região", "por regiões",
          "por ano", "por anos"] then
        if hasAny q ["modelo", "modelos"] then
          some "SELECT model, TO_CHAR(SUM(price_usd * sales_volume), 'FM999,999,999,999,999') as total_sales_value FROM bmw_sales GROUP BY model ORDER BY SUM(price_usd * sales_volume) DESC"
        else if hasAny q ["região", "regiões"] then
          some "SELECT region, TO_CHAR(SUM(price_usd * sales_volume), 'FM999,999,999,999,999') as total_sales_value FROM bmw_sales GROUP BY region ORDER BY SUM(price_usd * sales_volume) DESC"
        else if hasAny q ["ano", "anos"] then
          some "SELECT year, TO_CHAR(SUM(price_usd * sales_volume), 'FM999,999,999,999,999') as total_sales_value FROM bmw_sales GROUP BY year ORDER BY year"
        else
          some "SELECT TO_CHAR(SUM(price_usd * sales_volume), 'FM999,999,999,999,999') as total_sales_value FROM bmw_sales"
      else
        some "SELECT TO_CHAR(SUM(price_usd * sales_volume), 'FM999,999,999,999,999') as total_sales_value FROM bmw_sales"
    else
      if hasAny q ["por", "por cada", "por modelo", "por modelos", "por região", "por regiões",
          "por ano", "por anos"] then
        if hasAny q ["modelo", "modelos"] then
          some "SELECT model, SUM(sales_volume) as total_sales FROM bmw_sales GROUP BY model ORDER BY total_sales DESC"
        else if hasAny q ["região", "regiões"] then
          some "SELECT region, SUM(sales_volume) as total_sales FROM bmw_sales GROUP BY region ORDER BY total_sales DESC"
        else if hasAny q ["ano", "anos"] then
          some "SELECT year, SUM(sales_volume) as total_sales FROM bmw_sales GROUP BY year ORDER BY year"
        else
          some "SELECT SUM(sales_volume) as total_sales FROM bmw_sales"
      else
        some "SELECT SUM(sales_volume) as total_sales FROM bmw_sales"
  else if hasAny q ["mínimo", "minimo", "min", "menor"] then
    if hasAny q ["preço", "preco", "price"] then
      some "SELECT MIN(price_usd) as min_price FROM bmw_sales"
    else if hasAny q ["vendas", "sales"] then
      some "SELECT MIN(sales_volume) as min_sales FROM bmw_sales"
    else
      none
  else if hasAny q ["máximo", "maximo", "max", "maior"] then
    if hasAny q ["preço", "preco", "price"] then
      some "SELECT MAX(price_usd) as max_price FROM bmw_sales"
    else if hasAny q ["vendas", "sales"] then
      some "SELECT MAX(sales_volume) as max_sales FROM bmw_sales"
    else
      none
  else if hasAny q ["maior", "melhor", "top 1"] then
    if hasAny q ["região", "regiões"] then
      some "SELECT region, TO_CHAR(SUM(price_usd * sales_volume), 'FM999,999,999,999,999') as total_revenue FROM bmw_sales GROUP BY region ORDER BY SUM(price_usd * sales_volume) DESC LIMIT 1"
    else if hasAny q ["modelo", "modelos"] then
      some "SELECT model, TO_CHAR(SUM(price_usd * sales_volume), 'FM999,999,999,999,999') as total_revenue FROM bmw_sales GROUP BY model ORDER BY SUM(price_usd * sales_volume) DESC LIMIT 1"
    else
      none
  else if hasAny q ["performance", "desempenho"] then
    if hasAny q ["regiao", "regioes", "região", "regiões"] then
      some "SELECT * FROM analytics.kpi_regional_performance"
    else if hasAny q ["modelo", "modelos"] then
      some "SELECT * FROM analytics.kpi_model_performance"
    else if hasAny q ["cor", "cores"] then
      some "SELECT * FROM analytics.kpi_color_performance"
    else if hasAny q ["eficiência", "eficiencia"] then
      some "SELECT * FROM analytics.kpi_model_efficiency"
    else if hasAny q ["sazonal", "sazonalidade"] then
      some "SELECT * FROM analytics.kpi_seasonal_analysis"
    else
      none
  else if hasAny q ["ranking", "classificação", "top"] then
    if hasAny q ["modelo", "modelos"] then
      if hasAny q ["10", "dez"] then
        some "SELECT * FROM analytics.kpi_top_10_models LIMIT 10"
      else if hasAny q ["5", "cinco"] then
        some "SELECT * FROM analytics.kpi_top_10_models LIMIT 5"
      else
        some "SELECT * FROM analytics.kpi_top_10_models LIMIT 10"
    else if hasAny q ["região", "regiões"] then
      if hasAny q ["5", "cinco"] then
        some "SELECT * FROM analytics.kpi_top_5_regions"
      else if hasAny q ["10", "dez"] then
        some "SELECT * FROM analytics.kpi_top_5_regions LIMIT 10"
      else
        some "SELECT * FROM analytics.kpi_top_5_regions"
    else
      none
  else if hasAny q ["ano", "anos", "year"] then
    if hasAny q ["modelos", "modelo", "vendas", "sales"] then
      if hasAny q ["mais", "maior", "melhor", "top"] then
        some "SELECT year, COUNT(DISTINCT model) as total_models, SUM(sales_volume) as total_sales FROM bmw_sales GROUP BY year ORDER BY total_sales DESC LIMIT 5"
      else
        some "SELECT year, COUNT(DISTINCT model) as total_models, SUM(sales_volume) as total_sales FROM bmw_sales GROUP BY year ORDER BY year"
    else if hasAny q ["qual", "quais"] then
      some "SELECT year, COUNT(DISTINCT model) as total_models, SUM(sales_volume) as total_sales FROM bmw_sales GROUP BY year ORDER BY total_sales DESC LIMIT 1"
    else if hasAny q ["crescimento", "growth"] then
      some "SELECT * FROM analytics.kpi_annual_growth"
    else if hasAny q ["vendas", "sales"] then
      some "SELECT * FROM analytics.kpi_annual_sales"
    else
      some "SELECT * FROM analytics.kpi_annual_sales"
  else if hasAny q ["preços", "precos", "preço", "preco"] then
    if hasAny q ["análise", "analise", "segmentação", "segmentacao"] then
      some "SELECT * FROM analytics.kpi_price_analysis"
    else if hasAny q ["correlação", "correlacao", "volume"] then
      some "SELECT * FROM analytics.kpi_price_volume_correlation"
    else
      some "SELECT * FROM analytics.kpi_price_analysis"
  else if hasAny q ["cor", "cores"] then
    some "SELECT * FROM analytics.kpi_color_performance"
  else if hasAny q ["eficiência", "eficiencia"] then
    some "SELECT * FROM analytics.kpi_model_efficiency"
  else if hasAny q ["sazonal", "sazonalidade"] then
    some "SELECT * FROM analytics.kpi_seasonal_analysis"
  else if hasAny q ["top performers", "melhores performers", "múltiplas", "multiplas"] then
    some "SELECT * FROM analytics.kpi_top_performers"
  else if hasAny q ["penetração", "penetracao", "mercado", "market"] then
    some "SELECT * FROM analytics.kpi_market_penetration"
  else if hasAny q ["temporal", "tempo", "histórico", "historico"] then
    some "SELECT * FROM analytics.kpi_temporal_trends"
  else
    none

/-! ### The response assembler (`process_natural_language_query`, lines
348-422).  The SQL-executing collaborator, row results and wall-clock timing
are external I/O and are outside the embedded core; the envelope below carries
the decision fields the core computes. -/

/-- The resolution envelope (success flag, resolved SQL, category label,
explanation, confidence, error message, suggestions). -/
structure Envelope where
  success : Bool
  sqlQuery : Option String
  queryType : Option String
  explanation : Option String
  confidence : Option ℚ
  errorMsg : Option String
  suggestions : List String
deriving DecidableEq, Repr

/-- `process_natural_language_query`: normalize, try the matcher, then the
synthesizer, then fail with suggestions. -/
def processNaturalLanguageQuery (q : List Char) : Envelope :=
  let nq := normalizeQuery q
  match findMatchingQueryImproved nq with
  | some m => ⟨true, m.sql, some m.type, some m.explanation, some m.confidence, none, []⟩
  | none =>
    match generateCustomQueryImproved nq with
    | some sql =>
      ⟨true, some sql, some "custom", some "Query customizada gerada automaticamente",
        some (7 / 10), none, []⟩
    | none =>
      ⟨false, none, none, none, none,
        some "Não foi possível interpretar a consulta. Tente reformular.",
        getSuggestionsImproved⟩

/-! ### Lemmas: the search only reports in-bounds matches -/

theorem firstSome_eq_some (k : List Char → Option (List Char)) :
    ∀ (L : List (List Char)) (res : List Char), firstSome k L = some res →
      ∃ x, x ∈ L ∧ k x = some res := by
  intro L
  induction L with
  | nil => intro res h; simp [firstSome] at h
  | cons x xs ih =>
    intro res h
    rw [firstSome] at h
    cases hk : k x with
    | some r =>
      rw [hk] at h
      injection h with h'
      exact ⟨x, List.mem_cons_self x xs, by rw [hk, h']⟩
    | none =>
      rw [hk] at h
      obtain ⟨y, hy, hky⟩ := ih res h
      exact ⟨y, List.mem_cons_of_mem x hy, hky⟩

theorem gtails_suffix : ∀ (cs x : List Char), x ∈ gtails cs → x <:+ cs := by
  intro cs
  induction cs with
  | nil =>
    intro x hx
    simp [gtails] at hx
    simp [hx]
  | cons c rest ih =>
    intro x hx
    rw [gtails] at hx
    rcases List.mem_append.1 hx with h | h
    · exact (ih x h).trans (List.suffix_cons c rest)
    · simp at h
      subst h
      exact List.suffix_refl _

theorem mFirst_eq_some :
    ∀ (r : Rx) (cs : List Char) (k : List Char → Option (List Char)) (res : List Char),
      mFirst r cs k = some res → ∃ rem, rem <:+ cs ∧ k rem = some res := by
  intro r
  induction r with
  | eps =>
    intro cs k res h
    exact ⟨cs, List.suffix_refl cs, h⟩
  | lit s =>
    intro cs k res h
    rw [mFirst] at h
    by_cases hp : s.isPrefixOf cs
    · rw [if_pos hp] at h
      exact ⟨cs.drop s.length, List.drop_suffix _ _, h⟩
    · rw [if_neg hp] at h
      exact absurd h (by simp)
  | cls a =>
    intro cs k res h
    cases cs with
    | nil => simp [mFirst] at h
    | cons c rest =>
      rw [mFirst] at h
      by_cases hc : a.contains c
      · rw [if_pos hc] at h
        exact ⟨rest, List.suffix_cons c rest, h⟩
      · rw [if_neg hc] at h
        exact absurd h (by simp)
  | dotStar =>
    intro cs k res h
    rw [mFirst] at h
    obtain ⟨x, hx, hk⟩ := firstSome_eq_some k _ res h
    exact ⟨x, gtails_suffix cs x hx, hk⟩
  | seq a b iha ihb =>
    intro cs k res h
    rw [mFirst] at h
    obtain ⟨rem1, h1, hk1⟩ := iha cs _ res h
    obtain ⟨rem2, h2, hk2⟩ := ihb rem1 k res hk1
    exact ⟨rem2, h2.trans h1, hk2⟩
  | alt a b iha ihb =>
    intro cs k res h
    rw [mFirst] at h
    cases ha : mFirst a cs k with
    | some r =>
      rw [ha] at h
      injection h with h'
      subst h'
      exact iha cs k _ ha
    | none =>
      rw [ha] at h
      exact ihb cs k res h

theorem reSearchAux_eq_some (r : Rx) :
    ∀ (cs : List Char) (i s l : ℕ), reSearchAux r cs i = some (s, l) →
      i ≤ s ∧ (s - i) + l ≤ cs.length := by
  intro cs
  induction cs with
  | nil =>
    intro i s l h
    rw [reSearchAux] at h
    cases hm : mFirst r [] some with
    | some rem =>
      rw [hm] at h
      injection h with h'
      have hs : i = s := congrArg Prod.fst h'
      have hl : List.length ([] : List Char) - rem.length = l := congrArg Prod.snd h'
      subst hs
      simp at hl
      omega
    | none =>
      rw [hm] at h
      exact absurd h (by simp)
  | cons c rest ih =>
    intro i s l h
    rw [reSearchAux] at h
    cases hm : mFirst r (c :: rest) some with
    | some rem =>
      rw [hm] at h
      injection h with h'
      have hs : i = s := congrArg Prod.fst h'
      have hl : (c :: rest).length - rem.length = l := congrArg Prod.snd h'
      subst hs
      constructor
      · exact le_refl i
      · omega
    | none =>
      rw [hm] at h
      obtain ⟨h1, h2⟩ := ih (i + 1) s l h
      constructor
      · omega
      · simp only [List.length_cons]
        omega

theorem searchMatch_bound (r : Rx) (q : List Char) (s l : ℕ)
    (h : searchMatch r q = some (s, l)) : s + l ≤ q.length := by
  obtain ⟨h1, h2⟩ := reSearchAux_eq_some r q 0 s l h
  omega

theorem confidenceScore_bounds (L s l : ℕ) (hs : s ≤ L) (hl : l ≤ L) :
    0 ≤ confidenceScore L s l ∧ confidenceScore L s l ≤ 1 := by
  have hd0 : (0 : ℚ) < ((Nat.max L 1 : ℕ) : ℚ) := by
    have h1 : 0 < Nat.max L 1 := Nat.lt_of_lt_of_le Nat.zero_lt_one (Nat.le_max_right L 1)
    exact_mod_cast h1
  have hs' : (s : ℚ) ≤ ((Nat.max L 1 : ℕ) : ℚ) := by
    exact_mod_cast le_trans hs (Nat.le_max_left L 1)
  have hl' : (l : ℚ) ≤ ((Nat.max L 1 : ℕ) : ℚ) := by
    exact_mod_cast le_trans hl (Nat.le_max_left L 1)
  have h1 : (s : ℚ) / ((Nat.max L 1 : ℕ) : ℚ) ≤ 1 := (div_le_one hd0).2 hs'
  have h2 : (0 : ℚ) ≤ (s : ℚ) / ((Nat.max L 1 : ℕ) : ℚ) :=
    div_nonneg (by positivity) hd0.le
  have h3 : (l : ℚ) / ((Nat.max L 1 : ℕ) : ℚ) ≤ 1 := (div_le_one hd0).2 hl'
  have h4 : (0 : ℚ) ≤ (l : ℚ) / ((Nat.max L 1 : ℕ) : ℚ) :=
    div_nonneg (by positivity) hd0.le
  unfold confidenceScore positionScore lengthScore
  constructor
  · linarith
  · linarith

/-! ### Lemmas: the sweep is the best-score fold over the hit list -/

theorem foldl_patternStep (q : List Char) (t : String) :
    ∀ (ps : List Rx) (acc : Option Hit × ℚ),
      ps.foldl (patternStep q t) acc = (ps.filterMap (patternHit q t)).foldl bestStep acc := by
  intro ps
  induction ps with
  | nil => intro acc; rfl
  | cons p ps ih =>
    intro acc
    rw [List.foldl_cons]
    cases hp : patternHit q t p with
    | some h =>
      rw [List.filterMap_cons_some hp, List.foldl_cons]
      have hstep : patternStep q t acc p = bestStep acc h := by
        unfold patternStep
        rw [hp]
      rw [hstep]
      exact ih (bestStep acc h)
    | none =>
      rw [List.filterMap_cons_none hp]
      have hstep : patternStep q t acc p = acc := by
        unfold patternStep
        rw [hp]
      rw [hstep]
      exact ih acc

theorem foldl_categories (q : List Char) :
    ∀ (es : List (String × List Rx)) (acc : Option Hit × ℚ),
      es.foldl (fun a e => e.2.foldl (patternStep q e.1) a) acc =
        ((es.map (fun e => e.2.filterMap (patternHit q e.1))).flatten).foldl bestStep acc := by
  intro es
  induction es with
  | nil => intro acc; rfl
  | cons e es ih =>
    intro acc
    rw [List.foldl_cons, List.map_cons, List.flatten_cons, List.foldl_append,
      ← foldl_patternStep q e.1 e.2 acc]
    exact ih _

theorem sweepResult_eq_foldl (q : List Char) :
    sweepResult q = (allHits q).foldl bestStep (none, (0 : ℚ)) := by
  unfold sweepResult allHits
  exact foldl_categories q queryPatterns (none, 0)

theorem bestFold_spec :
    ∀ (hs : List Hit) (bm : Option Hit) (bs : ℚ),
      (hs.foldl bestStep (bm, bs) = (bm, bs) ∧ ∀ h ∈ hs, h.confidence ≤ bs) ∨
      ∃ l1 h l2, hs = l1 ++ h :: l2 ∧ hs.foldl bestStep (bm, bs) = (some h, h.confidence) ∧
        bs < h.confidence ∧ (∀ x ∈ l1, x.confidence < h.confidence) ∧
        ∀ x ∈ l2, x.confidence ≤ h.confidence := by
  intro hs
  induction hs with
  | nil =>
    intro bm bs
    left
    exact ⟨rfl, by simp⟩
  | cons h hs ih =>
    intro bm bs
    rw [List.foldl_cons]
    by_cases hc : bs < h.confidence
    · have hb : bestStep (bm, bs) h = (some h, h.confidence) := if_pos hc
      rw [hb]
      rcases ih (some h) h.confidence with ⟨heq, hall⟩ |
        ⟨l1, m, l2, hsplit, heq, hlt, hbefore, hafter⟩
      · right
        exact ⟨[], h, hs, rfl, heq, hc, by simp, hall⟩
      · right
        refine ⟨h :: l1, m, l2, by simp [hsplit], heq, lt_trans hc hlt, ?_, hafter⟩
        intro x hx
        rcases List.mem_cons.1 hx with rfl | hx'
        · exact hlt
        · exact hbefore x hx'
    · have hb : bestStep (bm, bs) h = (bm, bs) := if_neg hc
      rw [hb]
      rcases ih bm bs with ⟨heq, hall⟩ | ⟨l1, m, l2, hsplit, heq, hlt, hbefore, hafter⟩
      · left
        refine ⟨heq, ?_⟩
        intro x hx
        rcases List.mem_cons.1 hx with rfl | hx'
        · exact le_of_not_lt hc
        · exact hall x hx'
      · right
        refine ⟨h :: l1, m, l2, by simp [hsplit], heq, hlt, ?_, hafter⟩
        intro x hx
        rcases List.mem_cons.1 hx with rfl | hx'
        · exact lt_of_le_of_lt (le_of_not_lt hc) hlt
        · exact hbefore x hx'

/-! ### Lemma: whitespace-only input normalizes to the empty string -/

theorem dropWhile_all_eq_nil (p : Char → Bool) :
    ∀ (l : List Char), (∀ c ∈ l, p c = true) → l.dropWhile p = [] := by
  intro l
  induction l with
  | nil => intro _; rfl
  | cons c rest ih =>
    intro h
    rw [List.dropWhile_cons, h c (List.mem_cons_self c rest)]
    simp only [if_true]
    exact ih (fun x hx => h x (List.mem_cons_of_mem c hx))

theorem normalizeQuery_ws (q : List Char) (h : ∀ c ∈ q, isWs c = true) :
    normalizeQuery q = [] := by
  have hlower : ∀ c ∈ q.map pyLowerChar, isWs c = true := by
    intro c hc
    obtain ⟨c', hc', rfl⟩ := List.mem_map.1 hc
    have hw := h c' hc'
    have hsmall : c'.toNat < 65 := by
      simp only [isWs, Bool.or_eq_true, decide_eq_true_eq] at hw
      omega
    have hfix : pyLowerChar c' = c' := by
      unfold pyLowerChar
      rw [if_neg (by omega), if_neg (by omega)]
    rw [hfix]
    exact hw
  have hdrop : (q.map pyLowerChar).dropWhile isWs = [] :=
    dropWhile_all_eq_nil isWs _ hlower
  unfold normalizeQuery pyStrip
  rw [hdrop]
  rfl

/-! ### Concrete scenario values -/

/-- Scenario input `"Quais são as top 5 regiões?"`. -/
def inputA : List Char := ("Quais são as top 5 regiões?").data

/-- The winning hit on the normalized Scenario-A input: the second `top_regions`
pattern, matching at offset 0 with length 26 (confidence 53/54). -/
def hitA : Hit :=
  mkHit "top_regions"
    (rcat [alts ["quais", "mostre", "exiba"], dstar, alts ["top", "melhores"], dstar,
      alts ["regiões", "região"]])
    (("quais são as top 5 regiões?").data) 0 26

/-- Scenario input `"Qual a média de preços por modelo?"`. -/
def inputD : List Char := ("Qual a média de preços por modelo?").data

/-- The envelope the engine actually produces on Scenario D: the Matcher hit on
`average_price` (confidence 41/68), so the fixed year-grouped template is used
and the Synthesizer never runs. -/
def envD : Envelope :=
  ⟨true,
    some "SELECT year, AVG(price_usd) as average_price FROM bmw_sales GROUP BY year ORDER BY year",
    some "average_price", some "Consulta de average price", some (41 / 68), none, []⟩

/-- An input matched by `market_share`, a category with patterns but no template. -/
def quotaInput : List Char := ("quota de mercado").data

/-- The winning hit on `quotaInput`: `market_share`, confidence 1, `sql = none`. -/
def hitQuota : Hit :=
  mkHit "market_share" (rcat [alts ["quota", "share"], dstar, alts ["mercado", "market"]])
    quotaInput 0 16

/-- An input whose best category match has confidence 9/22, strictly between the
0.3 floor and the synthesizer's fixed 0.7. -/
def inputLate : List Char := ("aaaaaaaaaaaa dashboard").data

/-- The hit the dashboard category produces on the input `"resumo"`. -/
def hitResumo : Hit :=
  mkHit "dashboard"
    (alts ["dashboard", "resumo", "overview", "visão geral", "painel", "painel executivo"])
    (("resumo").data) 0 6

/-- The input `"dashboard"`. -/
def qDash : List Char := ("dashboard").data

/-- The hit the dashboard category produces on the input `"dashboard"`. -/
def hitDash : Hit :=
  mkHit "dashboard"
    (alts ["dashboard", "resumo", "overview", "visão geral", "painel", "painel executivo"])
    qDash 0 9

/-! ### C1 -/

/-- C1: for every normalized input and every pattern hit of the sweep, the hit's
confidence is the average of `position_score` and `length_score`, and it always
lies in `[0, 1]` (the match satisfies `start + length ≤ input_length` and the
`max(input_length, 1)` guard keeps the denominator positive). -/
theorem matcher_confidence_formula_and_range (q : List Char) (h : Hit)
    (hm : h ∈ allHits q) :
    h.confidence = (positionScore q.length h.start + lengthScore q.length h.len) / 2 ∧
    0 ≤ h.confidence ∧ h.confidence ≤ 1 := by
  unfold allHits at hm
  obtain ⟨L, hL, hhL⟩ := List.mem_flatten.1 hm
  obtain ⟨e, _, rfl⟩ := List.mem_map.1 hL
  obtain ⟨p, _, hp⟩ := List.mem_filterMap.1 hhL
  unfold patternHit at hp
  cases hsm : searchMatch p q with
  | none =>
    rw [hsm] at hp
    exact absurd hp (by simp)
  | some sl =>
    obtain ⟨s, l⟩ := sl
    rw [hsm] at hp
    simp only [Option.map_some'] at hp
    have hbound : s + l ≤ q.length := searchMatch_bound p q s l hsm
    injection hp with hp'
    subst hp'
    refine ⟨rfl, ?_⟩
    exact confidenceScore_bounds q.length s l (by omega) (by omega)

/-- Witness for C1 at the input `"resumo"` and its dashboard hit. -/
theorem matcher_confidence_witness :
    hitResumo.confidence =
      (positionScore (("resumo").data).length hitResumo.start +
        lengthScore (("resumo").data).length hitResumo.len) / 2 ∧
    0 ≤ hitResumo.confidence ∧ hitResumo.confidence ≤ 1 :=
  matcher_confidence_formula_and_range (("resumo").data) hitResumo
    (by with_unfolding_all exact of_decide_eq_true rfl)

/-! ### C2 -/

/-- C2: the Matcher sweeps every pattern of every category in table order and
keeps the single highest-confidence hit, first-seen winning ties (the update
uses strict greater-than), and it returns no-match exactly when the best
confidence over the whole sweep is ≤ 0.3. -/
theorem matcher_best_hit_selection (q : List Char) :
    (findMatchingQueryImproved q = none ↔ ∀ h ∈ allHits q, h.confidence ≤ 3 / 10) ∧
    ∀ m, findMatchingQueryImproved q = some m →
      (3 / 10 : ℚ) < m.confidence ∧
      ∃ l1 l2, allHits q = l1 ++ m :: l2 ∧ (∀ x ∈ l1, x.confidence < m.confidence) ∧
        ∀ x ∈ l2, x.confidence ≤ m.confidence := by
  have hfind : findMatchingQueryImproved q =
      if (3 / 10 : ℚ) < ((allHits q).foldl bestStep (none, 0)).2
      then ((allHits q).foldl bestStep (none, 0)).1 else none := by
    unfold findMatchingQueryImproved
    rw [sweepResult_eq_foldl]
  rcases bestFold_spec (allHits q) none 0 with ⟨heq, hall⟩ |
    ⟨l1, h, l2, hsplit, heq, _, hbefore, hafter⟩
  · rw [heq] at hfind
    rw [if_neg (by norm_num)] at hfind
    constructor
    · rw [hfind]
      constructor
      · intro _ x hx
        exact le_trans (hall x hx) (by norm_num)
      · intro _
        rfl
    · intro m hm
      rw [hfind] at hm
      exact absurd hm (by simp)
  · rw [heq] at hfind
    by_cases hth : (3 / 10 : ℚ) < h.confidence
    · rw [if_pos hth] at hfind
      constructor
      · rw [hfind]
        constructor
        · intro habs
          exact absurd habs (by simp)
        · intro hle
          have hmem : h ∈ allHits q := by
            rw [hsplit]
            exact List.mem_append_right l1 (List.mem_cons_self h l2)
          exact absurd hth (not_lt.2 (hle h hmem))
      · intro m hm
        rw [hfind] at hm
        injection hm with hm'
        subst hm'
        exact ⟨hth, l1, l2, hsplit, hbefore, hafter⟩
    · rw [if_neg hth] at hfind
      constructor
      · rw [hfind]
        constructor
        · intro _ x hx
          have hhle : h.confidence ≤ 3 / 10 := le_of_not_lt hth
          rw [hsplit] at hx
          rcases List.mem_append.1 hx with hx1 | hx2
          · exact le_trans (le_of_lt (hbefore x hx1)) hhle
          · rcases List.mem_cons.1 hx2 with rfl | hx3
            · exact hhle
            · exact le_trans (hafter x hx3) hhle
        · intro _
          rfl
      · intro m hm
        rw [hfind] at hm
        exact absurd hm (by simp)

/-- Witness for C2 at the input `"dashboard"`, whose winning hit has confidence 1. -/
theorem matcher_best_hit_witness :
    (3 / 10 : ℚ) < hitDash.confidence ∧
    ∃ l1 l2, allHits qDash = l1 ++ hitDash :: l2 ∧
      (∀ x ∈ l1, x.confidence < hitDash.confidence) ∧
      ∀ x ∈ l2, x.confidence ≤ hitDash.confidence :=
  (matcher_best_hit_selection qDash).2 hitDash
    (by with_unfolding_all exact of_decide_eq_true rfl)

/-! ### C3 -/

/-- C3: on `"Quais são as top 5 regiões?"` (lower-cased and trimmed) the Matcher
selects `top_regions` with confidence 53/54 > 0.3, and the resolved SQL is the
fixed `top_regions` template. -/
theorem scenario_top_regions :
    findMatchingQueryImproved (normalizeQuery inputA) = some hitA ∧
    hitA.type = "top_regions" ∧ (3 / 10 : ℚ) < hitA.confidence ∧
    hitA.sql = some "SELECT * FROM analytics.kpi_top_5_regions" := by
  with_unfolding_all exact of_decide_eq_true rfl

/-! ### C4 -/

/-- C4 counterexample: `market_share` is in the pattern library but has no
template, no startup validation exists, and a request-time match on it silently
carries `sql = none` (the claim's fail-fast/explicit-defect behaviour is absent). -/
theorem missing_template_counterexample :
    ("market_share" ∈ queryPatterns.map Prod.fst) ∧
    lookupTemplate "market_share" = none ∧
    findMatchingQueryImproved (normalizeQuery quotaInput) = some hitQuota ∧
    hitQuota.sql = none := by
  with_unfolding_all exact of_decide_eq_true rfl

/-- C4 amended: exactly four categories of the pattern library
(`market_share`, `asia_sales`, `europe_sales`, `america_sales`) are absent from
the template store; there is no startup check, and a request that matches such
a category yields a success envelope whose SQL is silently absent. -/
theorem missing_template_amended :
    ((queryPatterns.map Prod.fst).filter (fun t => (lookupTemplate t).isNone)) =
      ["market_share", "asia_sales", "europe_sales", "america_sales"] ∧
    processNaturalLanguageQuery quotaInput =
      ⟨true, none, some "market_share", some "Consulta de market share", some 1, none, []⟩ := by
  with_unfolding_all exact of_decide_eq_true rfl

/-! ### C5 -/

/-- C5 counterexample: on `"Qual a média de preços por modelo?"` resolution does
NOT take the Synthesizer — the Matcher hits `average_price` (confidence 41/68 >
0.3) and the envelope carries the fixed year-grouped template, not a
`GROUP BY model` query and not the `custom` label. -/
theorem scenario_average_counterexample :
    processNaturalLanguageQuery inputD = envD ∧
    envD.queryType ≠ some "custom" ∧
    envD.sqlQuery ≠
      some "SELECT model, AVG(price_usd) as average_price FROM bmw_sales GROUP BY model ORDER BY average_price DESC" := by
  with_unfolding_all exact of_decide_eq_true rfl

/-- C5 amended: on that input the Matcher resolves the query to the
`average_price` template (confidence 41/68), so the Synthesizer is not invoked;
the Synthesizer's Average branch, applied directly to the normalized input,
would detect the price metric and the `"por"`+`"modelo"` grouping and produce
the `GROUP BY model` variant. -/
theorem scenario_average_amended :
    processNaturalLanguageQuery inputD = envD ∧
    envD.confidence = some (41 / 68) ∧ (3 / 10 : ℚ) < 41 / 68 ∧
    generateCustomQueryImproved (normalizeQuery inputD) =
      some "SELECT model, AVG(price_usd) as average_price FROM bmw_sales GROUP BY model ORDER BY average_price DESC" := by
  with_unfolding_all exact of_decide_eq_true rfl

/-! ### C6 -/

/-- C6 counterexample: the input `"aaaaaaaaaaaa dashboard"` is a successful
Category match with confidence 9/22, and 9/22 < 7/10: the synthesizer's fixed
0.7 is NOT strictly lower than the confidence of every successful match. -/
theorem custom_confidence_counterexample :
    processNaturalLanguageQuery inputLate =
      ⟨true, some "SELECT * FROM analytics.kpi_executive_dashboard", some "dashboard",
        some "Consulta de dashboard", some (9 / 22), none, []⟩ ∧
    (3 / 10 : ℚ) < 9 / 22 ∧ (9 / 22 : ℚ) < 7 / 10 := by
  with_unfolding_all exact of_decide_eq_true rfl

/-- C6 amended: whenever the Matcher misses and the Synthesizer produces a SQL
string, the envelope carries the fixed confidence 0.7 and the label `custom`
(successful matches are only guaranteed confidence > 0.3, so 0.7 is not a lower
bound for them). -/
theorem custom_confidence_amended (q : List Char) (s : String)
    (hm : findMatchingQueryImproved (normalizeQuery q) = none)
    (hg : generateCustomQueryImproved (normalizeQuery q) = some s) :
    processNaturalLanguageQuery q =
      ⟨true, some s, some "custom", some "Query customizada gerada automaticamente",
        some (7 / 10), none, []⟩ := by
  simp only [processNaturalLanguageQuery, hm, hg]

/-- Witness for C6 at `"quantos aaa"` (Matcher misses, Count branch fires). -/
theorem custom_confidence_witness :
    processNaturalLanguageQuery (("quantos aaa").data) =
      ⟨true, some "SELECT COUNT(*) as total_records FROM bmw_sales", some "custom",
        some "Query customizada gerada automaticamente", some (7 / 10), none, []⟩ :=
  custom_confidence_amended (("quantos aaa").data) _
    (by with_unfolding_all exact of_decide_eq_true rfl)
    (by with_unfolding_all exact of_decide_eq_true rfl)

/-! ### C7 -/

/-- C7: branch exclusivity of the Synthesizer.  An input with a count keyword
(`conte`/`count`/`quantos`/`quantas`) and none of the sum/total/average words
always yields a COUNT query, never SUM or AVG; an input with sum vocabulary
(`soma`/`sum`) and no count or average keyword always yields a SUM query and
never a COUNT query. -/
theorem synthesizer_branch_exclusivity (q : List Char) :
    (hasAny q ["conte", "count", "quantos", "quantas"] = true →
      hasAny q ["soma", "sum", "total"] = false →
      hasAny q ["média", "media", "average", "avg"] = false →
      ∃ s, generateCustomQueryImproved q = some s ∧ sqlMentions s "COUNT" = true ∧
        sqlMentions s "SUM" = false ∧ sqlMentions s "AVG" = false) ∧
    (hasAny q ["soma", "sum"] = true →
      hasAny q ["conte", "count", "quantos", "quantas"] = false →
      hasAny q ["média", "media", "average", "avg"] = false →
      ∃ s, generateCustomQueryImproved q = some s ∧ sqlMentions s "COUNT" = false ∧
        sqlMentions s "SUM" = true) := by
  constructor
  · intro h1 h2 h3
    have hmem : generateCustomQueryImproved q ∈
        ([some "SELECT COUNT(DISTINCT region) as total_regions FROM bmw_sales",
          some "SELECT COUNT(DISTINCT model) as total_models FROM bmw_sales",
          some "SELECT COUNT(DISTINCT country) as total_countries FROM bmw_sales",
          some "SELECT COUNT(*) as total_records FROM bmw_sales"] : List (Option String)) := by
      unfold generateCustomQueryImproved
      rw [h1, h2]
      simp only [Bool.not_false, Bool.and_self, if_true]
      split_ifs <;> simp_all
    simp only [List.mem_cons, List.not_mem_nil, or_false] at hmem
    rcases hmem with h | h | h | h
    · exact ⟨_, h, by decide, by decide, by decide⟩
    · exact ⟨_, h, by decide, by decide, by decide⟩
    · exact ⟨_, h, by decide, by decide, by decide⟩
    · exact ⟨_, h, by decide, by decide, by decide⟩
  · intro h4 h5 h3
    have hmem : generateCustomQueryImproved q ∈
        ([some "SELECT model, SUM(sales_volume) as total_sales FROM bmw_sales GROUP BY model ORDER BY total_sales DESC",
          some "SELECT region, SUM(sales_volume) as total_sales FROM bmw_sales GROUP BY region ORDER BY total_sales DESC",
          some "SELECT year, SUM(sales_volume) as total_sales FROM bmw_sales GROUP BY year ORDER BY year",
          some "SELECT SUM(sales_volume) as total_sales FROM bmw_sales",
          some "SELECT model, TO_CHAR(SUM(price_usd * sales_volume), 'FM999,999,999,999,999') as total_revenue FROM bmw_sales GROUP BY model ORDER BY SUM(price_usd * sales_volume) DESC",
          some "SELECT region, TO_CHAR(SUM(price_usd * sales_volume), 'FM999,999,999,999,999') as total_revenue FROM bmw_sales GROUP BY region ORDER BY SUM(price_usd * sales_volume) DESC",
          some "SELECT year, TO_CHAR(SUM(price_usd * sales_volume), 'FM999,999,999,999,999') as total_revenue FROM bmw_sales GROUP BY year ORDER BY year",
          some "SELECT TO_CHAR(SUM(price_usd * sales_volume), 'FM999,999,999,999,999') as total_revenue FROM bmw_sales",
          some "SELECT model, TO_CHAR(SUM(price_usd * sales_volume), 'FM999,999,999,999,999') as total_sales_value FROM bmw_sales GROUP BY model ORDER BY SUM(price_usd * sales_volume) DESC",
          some "SELECT region, TO_CHAR(SUM(price_usd * sales_volume), 'FM999,999,999,999,999') as total_sales_value FROM bmw_sales GROUP BY region ORDER BY SUM(price_usd * sales_volume) DESC",
          some "SELECT year, TO_CHAR(SUM(price_usd * sales_volume), 'FM999,999,999,999,999') as total_sales_value FROM bmw_sales GROUP BY year ORDER BY year",
          some "SELECT TO_CHAR(SUM(price_usd * sales_volume), 'FM999,999,999,999,999') as total_sales_value FROM bmw_sales"] :
          List (Option String)) := by
      unfold generateCustomQueryImproved
      rw [h4, h5, h3]
      simp only [Bool.false_and, if_false, Bool.true_or, if_true]
      split_ifs <;> simp_all
    simp only [List.mem_cons, List.not_mem_nil, or_false] at hmem
    rcases hmem with h | h | h | h | h | h | h | h | h | h | h | h
    · exact ⟨_, h, by decide, by decide⟩
    · exact ⟨_, h, by decide, by decide⟩
    · exact ⟨_, h, by decide, by decide⟩
    · exact ⟨_, h, by decide, by decide⟩
    · exact ⟨_, h, by decide, by decide⟩
    · exact ⟨_, h, by decide, by decide⟩
    · exact ⟨_, h, by decide, by decide⟩
    · exact ⟨_, h, by decide, by decide⟩
    · exact ⟨_, h, by decide, by decide⟩
    · exact ⟨_, h, by decide, by decide⟩
    · exact ⟨_, h, by decide, by decide⟩
    · exact ⟨_, h, by decide, by decide⟩

/-- Witness for C7 at `"quantas regiões"` (count side) and `"soma de unidades"`
(sum side). -/
theorem synthesizer_branch_exclusivity_witness :
    (∃ s, generateCustomQueryImproved (("quantas regiões").data) = some s ∧
      sqlMentions s "COUNT" = true ∧ sqlMentions s "SUM" = false ∧
      sqlMentions s "AVG" = false) ∧
    ∃ s, generateCustomQueryImproved (("soma de unidades").data) = some s ∧
      sqlMentions s "COUNT" = false ∧ sqlMentions s "SUM" = true :=
  ⟨(synthesizer_branch_exclusivity (("quantas regiões").data)).1
      (by decide) (by decide) (by decide),
    (synthesizer_branch_exclusivity (("soma de unidades").data)).2
      (by decide) (by decide) (by decide)⟩

/-! ### C8 -/

/-- C8: empty or whitespace-only input is safe — normalization yields the empty
string, the `max(query_length, 1)` guard keeps the score denominator at 1 (so
`confidenceScore 0 0 0 = 1/2`, no division by zero), the Matcher returns
no-match on the empty string, the Synthesizer returns no result, and the
envelope has `success = false`. -/
theorem degenerate_input_safe (q : List Char) (hws : ∀ c ∈ q, isWs c = true) :
    normalizeQuery q = [] ∧
    findMatchingQueryImproved [] = none ∧
    generateCustomQueryImproved [] = none ∧
    processNaturalLanguageQuery q =
      ⟨false, none, none, none, none,
        some "Não foi possível interpretar a consulta. Tente reformular.",
        getSuggestionsImproved⟩ ∧
    confidenceScore 0 0 0 = 1 / 2 := by
  have hn := normalizeQuery_ws q hws
  refine ⟨hn, ?_, ?_, ?_, ?_⟩
  · with_unfolding_all exact of_decide_eq_true rfl
  · with_unfolding_all exact of_decide_eq_true rfl
  · simp only [processNaturalLanguageQuery, hn]
    with_unfolding_all exact of_decide_eq_true rfl
  · with_unfolding_all exact of_decide_eq_true rfl

/-- Witness for C8 at the whitespace-only input `"  \t "`. -/
theorem degenerate_input_witness :
    normalizeQuery (("  \t ").data) = [] ∧
    findMatchingQueryImproved [] = none ∧
    generateCustomQueryImproved [] = none ∧
    processNaturalLanguageQuery (("  \t ").data) =
      ⟨false, none, none, none, none,
        some "Não foi possível interpretar a consulta. Tente reformular.",
        getSuggestionsImproved⟩ ∧
    confidenceScore 0 0 0 = 1 / 2 :=
  degenerate_input_safe (("  \t ").data) (by decide)

/-! ### C9 -/

/-- C9: resolution is a total function of the input (no exception escapes the
embedded core), and every failing envelope (`success = false`) carries the
static non-empty suggestions list and the user-facing message — never a stack
trace.  (Downstream SQL-executor errors are outside the core, per the spec's
error taxonomy.) -/
theorem failure_envelope_suggestions (q : List Char)
    (hf : (processNaturalLanguageQuery q).success = false) :
    (processNaturalLanguageQuery q).suggestions = getSuggestionsImproved ∧
    (processNaturalLanguageQuery q).errorMsg =
      some "Não foi possível interpretar a consulta. Tente reformular." ∧
    getSuggestionsImproved ≠ [] := by
  cases hm : findMatchingQueryImproved (normalizeQuery q) with
  | some m =>
    rw [show processNaturalLanguageQuery q =
      ⟨true, m.sql, some m.type, some m.explanation, some m.confidence, none, []⟩ from by
        simp only [processNaturalLanguageQuery, hm]] at hf
    exact absurd hf (by simp)
  | none =>
    cases hg : generateCustomQueryImproved (normalizeQuery q) with
    | some s =>
      rw [show processNaturalLanguageQuery q =
        ⟨true, some s, some "custom", some "Query customizada gerada automaticamente",
          some (7 / 10), none, []⟩ from by
          simp only [processNaturalLanguageQuery, hm, hg]] at hf
      exact absurd hf (by simp)
    | none =>
      rw [show processNaturalLanguageQuery q =
        ⟨false, none, none, none, none,
          some "Não foi possível interpretar a consulta. Tente reformular.",
          getSuggestionsImproved⟩ from by
          simp only [processNaturalLanguageQuery, hm, hg]]
      exact ⟨rfl, rfl, by simp [getSuggestionsImproved]⟩

/-- Witness for C9 at the unrecognizable input `"asdkj qweoiu"`. -/
theorem failure_envelope_witness :
    (processNaturalLanguageQuery (("asdkj qweoiu").data)).suggestions =
      getSuggestionsImproved ∧
    (processNaturalLanguageQuery (("asdkj qweoiu").data)).errorMsg =
      some "Não foi possível interpretar a consulta. Tente reformular." ∧
    getSuggestionsImproved ≠ [] :=
  failure_envelope_suggestions (("asdkj qweoiu").data)
    (by with_unfolding_all exact of_decide_eq_true rfl)

/-! ### C10 -/

/-- C10 counterexample: `"soma máximo região"` contains a Max-group keyword, no
price keyword and no sales keyword, yet the Synthesizer returns a SUM query
(the earlier Sum branch fires), not `None`: the claim's universal statement
fails because earlier branches of the chain can still fire. -/
theorem max_branch_counterexample :
    hasAny (("soma máximo região").data) ["máximo", "maximo", "max", "maior"] = true ∧
    hasAny (("soma máximo região").data) ["preço", "preco", "price"] = false ∧
    hasAny (("soma máximo região").data) ["vendas", "sales"] = false ∧
    generateCustomQueryImproved (("soma máximo região").data) =
      some "SELECT SUM(sales_volume) as total_sales FROM bmw_sales" := by decide

/-- C10 amended: for inputs with a Max-group keyword, no price and no sales
keyword, AND none of the keywords of the earlier count/average/sum/min
branches, the Synthesizer returns `None` — even when dimension words such as
`região` or `modelo` are present, because the later Superlative branch is
unreachable once the Max branch has fired. -/
theorem max_branch_amended (q : List Char)
    (hmax : hasAny q ["máximo", "maximo", "max", "maior"] = true)
    (hcount : hasAny q ["conte", "count", "quantos", "quantas"] = false)
    (havg : hasAny q ["média", "media", "average", "avg"] = false)
    (hsum : hasAny q ["soma", "sum"] = false)
    (htot : hasAny q ["total"] = false)
    (hmin : hasAny q ["mínimo", "minimo", "min", "menor"] = false)
    (hprice : hasAny q ["preço", "preco", "price"] = false)
    (hsales : hasAny q ["vendas", "sales"] = false) :
    generateCustomQueryImproved q = none := by
  simp [generateCustomQueryImproved, hmax, hcount, havg, hsum, htot, hmin, hprice, hsales]

/-- Witness for C10 at `"máximo região"` (Max keyword plus a dimension word). -/
theorem max_branch_witness :
    generateCustomQueryImproved (("máximo região").data) = none :=
  max_branch_amended (("máximo região").data) (by decide) (by decide) (by decide)
    (by decide) (by decide) (by decide) (by decide) (by decide)
